import Mathlib

/-
  Verification development for the telegram-bot-alice repository.

  The repository holds two near-duplicate variants of one Telegram bot:
  - src/render_start.py          (simpler variant, namespace RenderSimple)
  - src/code/render_start.py     (richer variant, namespace RenderFull)

  Each Python handler is embedded as a pure Lean function.  A handler
  returns a pair (reply, calls): the final user-visible reply text (a
  provisional reply later edited in place is represented by its final
  text) and the number of outbound calls to the completion or quote
  endpoint this handler performed.  HTTP interaction is embedded by
  passing the upstream response, or the raised transport exception, as
  an explicit argument; JSON bodies are embedded as structures whose
  fields are Option values, none meaning the key is absent, matching
  the dict.get navigation of the source.  Numbers are ℚ; the exact
  textual rendering of a present number abstracts the Python float
  repr, which no claim depends on.
-/

namespace TelegramBotAlice

/-- Python truthiness of the result of os.getenv: None and the empty
string are falsy, every other string is truthy. -/
def py_truthy : Option String → Bool
  | none => false
  | some s => s ≠ ""

/-- The string t occurs as a contiguous substring of s. -/
def strContains (s t : String) : Prop := ∃ a b : String, s = a ++ t ++ b

/-- Associativity of string concatenation, used to rearrange rendered
reply texts when exhibiting a substring occurrence. -/
theorem strAppend_assoc (a b c : String) : a ++ b ++ c = a ++ (b ++ c) := by
  apply String.ext
  simp [String.data_append]

/-- Outcome of one outbound HTTP request: a status code with a decoded
body, or a raised transport exception carrying its message. -/
inductive HttpResult (α : Type) where
  | ok (status : Nat) (body : α)
  | exc (msg : String)

end TelegramBotAlice

namespace TelegramBotAlice.RenderFull

/- Embedding of src/code/render_start.py. -/

/-- Startup validation of the richer variant: TELEGRAM_BOT_TOKEN and
TELEGRAM_CHAT_ID are both required; a falsy value makes the process
exit with code 1 before any update is handled. -/
def startup_exit (bot_token chat_id : Option String) : Except Nat Unit :=
  if ¬ py_truthy bot_token then .error 1
  else if ¬ py_truthy chat_id then .error 1
  else .ok ()

/-- The message object inside one choice of a completion response. -/
structure NebulaMessage where
  content : Option String

/-- One element of the choices list of a completion response. -/
structure NebulaChoice where
  message : Option NebulaMessage

/-- Decoded JSON body of a completion response; none means the choices
key is absent. -/
structure CompletionBody where
  choices : Option (List NebulaChoice)

def api_key_advisory : String :=
  "⚠️ 尚未設定 Nebula API Key，無法使用 AI 對話功能。\n\n請在 Render 環境變數中設定 NEBULA_API_KEY。"

def no_content_default : String := "無法取得回應"

/-- call_nebula_api.  Returns the reply text and the number of outbound
HTTP calls issued.  With no API key configured it returns the advisory
without calling out.  Otherwise, on status 200 it navigates
choices[0].message.content with dict.get defaults; an explicitly empty
choices list makes the [0] index raise IndexError, which the except
clause turns into the generic error string.  On any other status it
returns the failure string embedding the status code; a transport
exception is turned into the generic error string. -/
def call_nebula_api (api_key message : String)
    (resp : HttpResult CompletionBody) : String × Nat :=
  if api_key = "" then (api_key_advisory, 0)
  else
    match resp with
    | .ok status body =>
      if status = 200 then
        match body.choices.getD [⟨none⟩] with
        | [] => ("❌ 發生錯誤: list index out of range", 1)
        | c :: _ =>
          (((c.message.getD ⟨none⟩).content).getD no_content_default, 1)
      else ("❌ API 呼叫失敗 (HTTP " ++ toString status ++ ")", 1)
    | .exc e => ("❌ 發生錯誤: " ++ e, 1)

/-- The meta object of a Yahoo Finance chart response. -/
structure ChartMeta where
  regularMarketPrice : Option ℚ
  previousClose : Option ℚ
  symbol : Option String
  currency : Option String

/-- One element of the result list of a chart response. -/
structure ChartResultObj where
  meta : Option ChartMeta

/-- The chart object of a chart response. -/
structure ChartInner where
  result : Option (List ChartResultObj)

/-- Decoded JSON body of a chart response. -/
structure ChartBody where
  chart : Option ChartInner

/-- A chart body whose navigation chart.result[0].meta yields m. -/
def chartBodyOf (m : ChartMeta) : ChartBody := ⟨some ⟨some [⟨some m⟩]⟩⟩

/-- change = price - prev_close if price != "N/A" and prev_close != "N/A"
else 0: arithmetic happens only when both fields are present. -/
def quote_change (price prev_close : Option ℚ) : ℚ :=
  match price, prev_close with
  | some p, some pc => p - pc
  | _, _ => 0

/-- change_percent = (change / prev_close * 100) if prev_close != "N/A"
and prev_close != 0 else 0. -/
def quote_change_percent (change : ℚ) (prev_close : Option ℚ) : ℚ :=
  match prev_close with
  | some pc => if pc ≠ 0 then change / pc * 100 else 0
  | none => 0

/-- Directional indicator chosen from the sign of change. -/
def change_emoji (change : ℚ) : String :=
  if change < 0 then "🔴" else if change > 0 then "🟢" else "⚪"

/-- Always-signed fixed-point rendering with two decimals, standing in
for the Python format spec +.2f; the rounding direction at ties is not
relied on by any claim. -/
def fmtSigned2 (q : ℚ) : String :=
  let n : Int := Rat.floor (q * 100 + 1 / 2)
  let sign := if n < 0 then "-" else "+"
  let a := n.natAbs
  sign ++ toString (a / 100) ++ "." ++
    (if a % 100 < 10 then "0" else "") ++ toString (a % 100)

/-- Display of a possibly absent numeric field: the absent sentinel is
shown as N/A, a present value is shown as a number. -/
def dispQ : Option ℚ → String
  | none => "N/A"
  | some q => toString q

/-- The fixed-layout quote block of the richer variant, assembled from
the already-computed display pieces exactly as in the f-string. -/
def renderQuote (symbol priceD prevD : String) (change change_percent : ℚ)
    (currency now : String) : String :=
  "\n📊 **" ++ symbol ++ "** 即時資訊\n\n💰 目前價格: " ++ priceD ++ " " ++
    currency ++ "\n📉 昨日收盤: " ++ prevD ++ " " ++ currency ++ "\n" ++
    change_emoji change ++ " 漲跌: " ++ fmtSigned2 change ++ " (" ++
    fmtSigned2 change_percent ++ "%)\n🕐 更新時間: " ++ now ++ "\n"

/-- get_stock_price.  On status 200 it navigates
chart.result[0].meta with dict.get defaults (an explicitly empty result
list raises IndexError, caught by the except clause), computes change
and change_percent under the presence guards, and renders the block
with symbol defaulting to the requested code and currency defaulting
to TWD.  On any other status it returns the failure string embedding
the status code; a transport exception becomes the error string. -/
def get_stock_price (stock_code : String) (resp : HttpResult ChartBody)
    (now : String) : String :=
  match resp with
  | .exc e => "❌ 查詢失敗: " ++ e
  | .ok status body =>
    if status = 200 then
      match (body.chart.getD ⟨none⟩).result.getD [⟨none⟩] with
      | [] => "❌ 查詢失敗: list index out of range"
      | r :: _ =>
        let meta := r.meta.getD ⟨none, none, none, none⟩
        let price := meta.regularMarketPrice
        let prev_close := meta.previousClose
        let change := quote_change price prev_close
        let change_percent := quote_change_percent change prev_close
        renderQuote (meta.symbol.getD stock_code) (dispQ price)
          (dispQ prev_close) change change_percent
          (meta.currency.getD "TWD") now
    else "❌ 無法取得 " ++ stock_code ++ " 的股價資訊（HTTP " ++
      toString status ++ "）"

def denial_text : String := "❌ 抱歉，你沒有使用此 Bot 的權限。"

def welcome_message : String :=
  "\n👋 歡迎使用 Alice AI 助理！\n\n🤖 **我能做什麼？**\n\n📊 **股價查詢**\n• /stock 2330.TW - 查詢台積電股價\n• /stock AAPL - 查詢蘋果股價\n• /stock ^TWII - 查詢台灣加權指數\n\n💬 **AI 對話**\n• 直接輸入任何問題，我會用 AI 回答\n• 例如: \"台積電今天表現如何？\"\n• 例如: \"幫我分析美股趨勢\"\n\n📈 **持股管理** (即將推出)\n• /portfolio - 查看持股資訊\n• /report - 查看報告推送時間\n\n❓ **其他指令**\n• /help - 顯示使用說明\n• /ping - 測試 Bot 狀態\n\n💡 **提示**: 你可以直接問我任何問題！\n"

/-- start_command of the richer variant: deny unauthorized senders,
otherwise reply the welcome text; never calls an endpoint. -/
def start_command (CHAT_ID user_id : String) : String × Nat :=
  if user_id ≠ CHAT_ID then (denial_text, 0) else (welcome_message, 0)

def help_text : String :=
  "\n📚 **使用說明**\n\n**基本指令**\n/start - 顯示歡迎訊息\n/help - 顯示此說明\n/ping - 測試 Bot 狀態\n\n**股價查詢**\n/stock <代碼> - 查詢股票即時價格\n\n支援的股票代碼格式:\n• 台股: 2330.TW (台積電)\n• 美股: AAPL (蘋果)\n• 指數: ^TWII (台灣加權), ^DJI (道瓊)\n\n範例:\n/stock 2330.TW\n/stock AAPL\n/stock ^TWII\n\n**AI 對話**\n直接輸入訊息即可與 AI 對話:\n• \"台積電今天表現如何？\"\n• \"美股趨勢分析\"\n• \"幫我解釋什麼是 ETF\"\n\n**持股管理** (開發中)\n/portfolio - 查看持股明細\n/report - 查看報告推送設定\n\n**自動推送** (計畫中)\n• 每日 06:30 - 台美財經日報\n• 每日 07:00 - 持股損益更新\n• 週六 07:00 - 每週投資週報\n\n有問題嗎？直接問我就對了！😊\n"

/-- help_command of the richer variant. -/
def help_command (CHAT_ID user_id : String) : String × Nat :=
  if user_id ≠ CHAT_ID then (denial_text, 0) else (help_text, 0)

/-- The /ping status block, embedding the wall-clock time and whether
an API key is configured. -/
def ping_status_message (now api_key : String) : String :=
  "\n🟢 **Bot 狀態: 正常運行中**\n\n⏰ 當前時間: " ++ now ++
    "\n🤖 服務: Telegram Bot\n🔗 連接: Nebula API " ++
    (if api_key ≠ "" then "✅" else "⚠️ 未設定") ++
    "\n📡 環境: Render.com Background Worker\n\n✅ 所有系統正常！\n"

/-- ping_command of the richer variant. -/
def ping_command (CHAT_ID user_id api_key now : String) : String × Nat :=
  if user_id ≠ CHAT_ID then (denial_text, 0)
  else (ping_status_message now api_key, 0)

def stock_usage_text : String :=
  "❌ 請提供股票代碼\n\n使用方式: /stock <代碼>\n範例:\n  /stock 2330.TW (台積電)\n  /stock AAPL (蘋果)\n  /stock ^TWII (台灣加權指數)"

/-- stock_command of the richer variant: deny unauthorized senders;
with no argument reply the usage text without calling out; otherwise
look up the first argument upper-cased via get_stock_price, one
outbound quote call, the provisional reply being edited to the
result. -/
def stock_command (CHAT_ID user_id : String) (args : List String)
    (resp : HttpResult ChartBody) (now : String) : String × Nat :=
  if user_id ≠ CHAT_ID then (denial_text, 0)
  else
    match args with
    | [] => (stock_usage_text, 0)
    | a :: _ => (get_stock_price a.toUpper resp now, 1)

def portfolio_text : String :=
  "📊 **持股管理功能**\n\n⚠️ 此功能正在開發中...\n\n未來功能:\n• 即時持股損益\n• 個股成本分析\n• 報酬率統計\n• 風險評估\n\n敬請期待！"

/-- portfolio_command of the richer variant. -/
def portfolio_command (CHAT_ID user_id : String) : String × Nat :=
  if user_id ≠ CHAT_ID then (denial_text, 0) else (portfolio_text, 0)

def report_text : String :=
  "📨 **自動報告推送時間表**\n\n⚠️ 推送功能尚未啟用\n\n計畫推送時間:\n• 每日 06:30 - 台美財經日報\n• 每日 07:00 - 持股損益更新\n• 週六 07:00 - 每週投資週報\n\n敬請期待！"

/-- report_command of the richer variant. -/
def report_command (CHAT_ID user_id : String) : String × Nat :=
  if user_id ≠ CHAT_ID then (denial_text, 0) else (report_text, 0)

/-- handle_message of the richer variant: deny unauthorized senders,
otherwise forward the text to call_nebula_api and edit the provisional
reply to its answer. -/
def handle_message (CHAT_ID user_id text api_key : String)
    (resp : HttpResult CompletionBody) : String × Nat :=
  if user_id ≠ CHAT_ID then (denial_text, 0)
  else call_nebula_api api_key text resp

end TelegramBotAlice.RenderFull

namespace TelegramBotAlice.RenderSimple

/- Embedding of src/render_start.py. -/

/-- An inbound update as the simpler variant reads it: the sender id
rendered as a decimal string, and the message text. -/
structure Incoming where
  user_id : String
  text : String

/-- Startup validation of the simpler variant: only TELEGRAM_BOT_TOKEN
is required; TELEGRAM_CHAT_ID is optional. -/
def startup_exit (bot_token : Option String) : Except Nat Unit :=
  if ¬ py_truthy bot_token then .error 1 else .ok ()

def denial_text : String := "⚠️ 你沒有使用此 Bot 的權限。"

def welcome_message : String :=
  "🎉 *歡迎使用 Alice AI Bot！*\n\n我是你的 AI 助手，可以協助你：\n\n📊 *主要功能*\n• 查詢持股資訊\n• 接收每日財經報告\n• 搜尋市場資訊\n• 即時問答\n\n💬 *使用方式*\n直接發送訊息給我，或使用以下指令：\n\n/start - 顯示此訊息\n/help - 查看詳細說明\n/portfolio - 查看持股\n/report - 最新報告\n/ping - 測試連線\n\n現在就試試看吧！"

/-- start_command of the simpler variant: replies the welcome text to
every sender; the source performs no authorization check here. -/
def start_command (update : Incoming) : String × Nat :=
  (welcome_message, 0)

def help_text : String :=
  "📖 *使用說明*\n\n*可用指令：*\n/start - 開始使用\n/help - 查看說明\n/portfolio - 查看持股狀況\n/report - 查看最新報告\n/ping - 測試 Bot 狀態\n\n*直接對話：*\n你可以直接發送訊息給我，例如：\n• \"台積電今天股價\"\n• \"顯示我的持股\"\n• \"美股表現如何\"\n\n*自動通知：*\n我會在以下時間自動推送報告：\n• 每天 06:30 - 台美財經日報\n• 每天 07:00 - 持股損益更新\n• 每週六 07:00 - 週報\n\n有問題隨時問我！"

/-- help_command of the simpler variant: no authorization check. -/
def help_command (update : Incoming) : String × Nat :=
  (help_text, 0)

def ping_text : String := "🟢 Bot 正常運行中！"

/-- ping_command of the simpler variant: no authorization check. -/
def ping_command (update : Incoming) : String × Nat :=
  (ping_text, 0)

def portfolio_text : String :=
  "📊 *持股資訊*\n\n此功能需要與 Nebula 系統整合。\n目前可以接收自動推送的持股報告。\n\n每日 07:00 會自動更新持股損益。"

/-- portfolio_command of the simpler variant: no authorization check. -/
def portfolio_command (update : Incoming) : String × Nat :=
  (portfolio_text, 0)

def report_text : String :=
  "📰 *報告查詢*\n\n自動報告推送時間：\n• 06:30 - 每日台美財經日報\n• 07:00 - 持股損益更新\n• 週六 07:00 - 週報\n\n最新報告會自動推送到此聊天室。"

/-- report_command of the simpler variant: no authorization check. -/
def report_command (update : Incoming) : String × Nat :=
  (report_text, 0)

/-- The echo reply of the simpler free-text handler, embedding the
message text verbatim. -/
def echo_response (user_message : String) : String :=
  "收到你的訊息：「" ++ user_message ++
    "」\n\n此功能正在開發中，目前支援：\n• /help - 查看說明\n• /portfolio - 持股資訊\n• /report - 報告查詢"

/-- handle_message of the simpler variant: when a chat id is configured
(truthy) and the sender differs, deny; otherwise — also when no chat id
is configured, failing open — reply the echo template.  This variant
never calls any external endpoint. -/
def handle_message (CHAT_ID : Option String) (update : Incoming) :
    String × Nat :=
  if py_truthy CHAT_ID ∧ update.user_id ≠ CHAT_ID.getD "" then
    (denial_text, 0)
  else (echo_response update.text, 0)

end TelegramBotAlice.RenderSimple

namespace TelegramBotAlice

/-- Helper: the rendered quote block contains its price display piece
as a contiguous substring. -/
theorem renderQuote_contains_priceD (s p d : String) (ch cp : ℚ)
    (cur now : String) :
    strContains (RenderFull.renderQuote s p d ch cp cur now) p := by
  refine ⟨"\n📊 **" ++ s ++ "** 即時資訊\n\n💰 目前價格: ",
    " " ++ cur ++ "\n📉 昨日收盤: " ++ d ++ " " ++ cur ++ "\n" ++
      RenderFull.change_emoji ch ++ " 漲跌: " ++ RenderFull.fmtSigned2 ch ++
      " (" ++ RenderFull.fmtSigned2 cp ++ "%)\n🕐 更新時間: " ++ now ++ "\n",
    ?_⟩
  simp [RenderFull.renderQuote, strAppend_assoc]

/-- C1 counterexample: the claim says every command handler in both
variants denies an unauthorized sender, but the start handler of the
simpler variant performs no authorization check: with configured
identity 123, sender 999 receives the full welcome text, not the
denial text. -/
theorem C1_authorization_counterexample :
    ("999" : String) ≠ "123" ∧
    RenderSimple.start_command ⟨"999", "hi"⟩ =
      (RenderSimple.welcome_message, 0) ∧
    RenderSimple.welcome_message ≠ RenderSimple.denial_text :=
  ⟨by decide, rfl, by decide⟩

/-- C1 amended: in the richer variant every command handler and the
free-text handler reply exactly the fixed denial text with zero
completion or quote calls for every sender other than the configured
identity; in the simpler variant only the free-text handler denies
(when an identity is configured), while its command handlers start,
help, ping, portfolio, report reply their normal static text to every
sender and never call an endpoint (the simpler variant has no stock
handler). -/
theorem C1_authorization_denial (chat uid : String) (h : uid ≠ chat) :
    RenderFull.start_command chat uid = (RenderFull.denial_text, 0) ∧
    RenderFull.help_command chat uid = (RenderFull.denial_text, 0) ∧
    (∀ api_key now, RenderFull.ping_command chat uid api_key now =
      (RenderFull.denial_text, 0)) ∧
    (∀ args resp now, RenderFull.stock_command chat uid args resp now =
      (RenderFull.denial_text, 0)) ∧
    RenderFull.portfolio_command chat uid = (RenderFull.denial_text, 0) ∧
    RenderFull.report_command chat uid = (RenderFull.denial_text, 0) ∧
    (∀ text api_key resp,
      RenderFull.handle_message chat uid text api_key resp =
        (RenderFull.denial_text, 0)) ∧
    (chat ≠ "" → ∀ text,
      RenderSimple.handle_message (some chat) ⟨uid, text⟩ =
        (RenderSimple.denial_text, 0)) ∧
    (∀ upd : RenderSimple.Incoming,
      RenderSimple.start_command upd = (RenderSimple.welcome_message, 0) ∧
      RenderSimple.help_command upd = (RenderSimple.help_text, 0) ∧
      RenderSimple.ping_command upd = (RenderSimple.ping_text, 0) ∧
      RenderSimple.portfolio_command upd = (RenderSimple.portfolio_text, 0) ∧
      RenderSimple.report_command upd = (RenderSimple.report_text, 0)) := by
  refine ⟨by simp [RenderFull.start_command, h],
    by simp [RenderFull.help_command, h],
    fun _ _ => by simp [RenderFull.ping_command, h],
    fun _ _ _ => by simp [RenderFull.stock_command, h],
    by simp [RenderFull.portfolio_command, h],
    by simp [RenderFull.report_command, h],
    fun _ _ _ => by simp [RenderFull.handle_message, h],
    fun hc _ => by
      simp [RenderSimple.handle_message, py_truthy, hc, h],
    fun _ => ⟨rfl, rfl, rfl, rfl, rfl⟩⟩

/-- C1 witness: the richer start handler denies the concrete
unauthorized sender 999 when the configured identity is 123. -/
theorem C1_authorization_witness :
    RenderFull.start_command "123" "999" = (RenderFull.denial_text, 0) :=
  (C1_authorization_denial "123" "999" (by decide)).1

/-- C2: with no authorized identity configured (unset or empty), the
richer variant exits with code 1 at startup regardless of the bot
token, while the simpler variant fails open: its free-text handler
replies the normal echo to every sender. -/
theorem C2_identity_requiredness :
    (∀ bt, RenderFull.startup_exit bt none = .error 1) ∧
    (∀ bt, RenderFull.startup_exit bt (some "") = .error 1) ∧
    (∀ uid text, RenderSimple.handle_message none ⟨uid, text⟩ =
      (RenderSimple.echo_response text, 0)) ∧
    (∀ uid text, RenderSimple.handle_message (some "") ⟨uid, text⟩ =
      (RenderSimple.echo_response text, 0)) := by
  refine ⟨fun bt => ?_, fun bt => ?_, fun uid text => ?_, fun uid text => ?_⟩
  · unfold RenderFull.startup_exit
    cases hb : py_truthy bt <;> simp [hb, py_truthy]
  · unfold RenderFull.startup_exit
    cases hb : py_truthy bt <;> simp [hb, py_truthy]
  · simp [RenderSimple.handle_message, py_truthy]
  · simp [RenderSimple.handle_message, py_truthy]

/-- C3: change is price minus previous close exactly when both are
present and 0 otherwise; change_percent is change / previous close *
100 exactly when the previous close is present and non-zero and 0
otherwise (in particular a zero previous close never divides); an
absent price field is displayed as N/A in the rendered block. -/
theorem C3_quote_arithmetic (p pc c : ℚ) (x : Option ℚ)
    (code now : String) (m : RenderFull.ChartMeta)
    (hpc : pc ≠ 0) (hm : m.regularMarketPrice = none) :
    RenderFull.quote_change (some p) (some pc) = p - pc ∧
    RenderFull.quote_change none x = 0 ∧
    RenderFull.quote_change x none = 0 ∧
    RenderFull.quote_change_percent c (some pc) = c / pc * 100 ∧
    RenderFull.quote_change_percent c (some 0) = 0 ∧
    RenderFull.quote_change_percent c none = 0 ∧
    strContains
      (RenderFull.get_stock_price code (.ok 200 (RenderFull.chartBodyOf m)) now)
      "N/A" := by
  refine ⟨rfl, by cases x <;> rfl, by cases x <;> rfl,
    by simp [RenderFull.quote_change_percent, hpc], rfl, rfl, ?_⟩
  have he : RenderFull.get_stock_price code
      (.ok 200 (RenderFull.chartBodyOf m)) now =
      RenderFull.renderQuote (m.symbol.getD code) "N/A"
        (RenderFull.dispQ m.previousClose)
        (RenderFull.quote_change none m.previousClose)
        (RenderFull.quote_change_percent
          (RenderFull.quote_change none m.previousClose) m.previousClose)
        (m.currency.getD "TWD") now := by
    simp [RenderFull.get_stock_price, RenderFull.chartBodyOf,
      RenderFull.dispQ, hm]
  rw [he]
  exact renderQuote_contains_priceD _ _ _ _ _ _ _

/-- C3 witness: at price 600 and previous close 590 the change is the
difference. -/
theorem C3_quote_arithmetic_witness :
    RenderFull.quote_change (some 600) (some 590) = 600 - 590 :=
  (C3_quote_arithmetic 600 590 10 none "2330.TW" "t"
    ⟨none, some 590, none, none⟩ (by decide) rfl).1

/-- C4: a non-success status from the quote endpoint yields the
user-facing failure string, which contains the status code, and a
transport exception is converted to the error string; in both cases a
string is returned rather than an exception propagating. -/
theorem C4_quote_errors (code now : String) (status : Nat)
    (body : RenderFull.ChartBody) (e : String) (h : status ≠ 200) :
    RenderFull.get_stock_price code (.ok status body) now =
      "❌ 無法取得 " ++ code ++ " 的股價資訊（HTTP " ++ toString status ++ "）" ∧
    strContains (RenderFull.get_stock_price code (.ok status body) now)
      (toString status) ∧
    RenderFull.get_stock_price code (.exc e) now = "❌ 查詢失敗: " ++ e := by
  refine ⟨by simp [RenderFull.get_stock_price, h], ?_, rfl⟩
  refine ⟨"❌ 無法取得 " ++ code ++ " 的股價資訊（HTTP ", "）", ?_⟩
  simp [RenderFull.get_stock_price, h, strAppend_assoc]

/-- C4 witness: a 404 from the quote endpoint produces a reply that
contains 404, and a timeout exception becomes the error string. -/
theorem C4_quote_errors_witness :
    strContains
      (RenderFull.get_stock_price "2330.TW" (.ok 404 ⟨none⟩) "t")
      (toString 404) :=
  (C4_quote_errors "2330.TW" "t" 404 ⟨none⟩ "timeout" (by decide)).2.1

/-- C5 counterexample: the claim says every 2xx response with a
credential yields the extracted text, but the code tests for exactly
200: at status 201 with a well-formed body whose content is hello the
caller returns the failure string instead of hello. -/
theorem C5_completion_counterexample :
    (200 ≤ 201 ∧ 201 < 300) ∧
    RenderFull.call_nebula_api "k" "m"
      (.ok 201 ⟨some [⟨some ⟨some "hello"⟩⟩]⟩) =
      ("❌ API 呼叫失敗 (HTTP 201)", 1) ∧
    ("❌ API 呼叫失敗 (HTTP 201)" : String) ≠ "hello" := by
  refine ⟨by decide, by decide, by decide⟩

/-- C5 amended: with a credential configured, the completion caller
returns the failure string embedding the status code exactly when the
status is not 200 (not: not 2xx), the generic error string on a
transport exception or on a 200 body with an explicitly empty choices
list, and otherwise the text extracted from the 200 body through the
defaulting navigation; with no credential it returns the advisory and
makes no call. -/
theorem C5_completion_failures (key msg : String) (status : Nat)
    (body : RenderFull.CompletionBody) (e : String)
    (c : RenderFull.NebulaChoice) (rest : List RenderFull.NebulaChoice)
    (hk : key ≠ "") (hs : status ≠ 200) :
    RenderFull.call_nebula_api key msg (.ok status body) =
      ("❌ API 呼叫失敗 (HTTP " ++ toString status ++ ")", 1) ∧
    strContains (RenderFull.call_nebula_api key msg (.ok status body)).1
      (toString status) ∧
    RenderFull.call_nebula_api key msg (.exc e) =
      ("❌ 發生錯誤: " ++ e, 1) ∧
    RenderFull.call_nebula_api key msg (.ok 200 ⟨some (c :: rest)⟩) =
      (((c.message.getD ⟨none⟩).content).getD RenderFull.no_content_default,
        1) ∧
    RenderFull.call_nebula_api key msg (.ok 200 ⟨some []⟩) =
      ("❌ 發生錯誤: list index out of range", 1) ∧
    RenderFull.call_nebula_api "" msg (.ok status body) =
      (RenderFull.api_key_advisory, 0) := by
  refine ⟨by simp [RenderFull.call_nebula_api, hk, hs], ?_,
    by simp [RenderFull.call_nebula_api, hk],
    by simp [RenderFull.call_nebula_api, hk],
    by simp [RenderFull.call_nebula_api, hk], rfl⟩
  refine ⟨"❌ API 呼叫失敗 (HTTP ", ")", ?_⟩
  simp [RenderFull.call_nebula_api, hk, hs, strAppend_assoc]

/-- C5 witness: with credential k, a 500 from the completion endpoint
yields the failure string embedding 500. -/
theorem C5_completion_failures_witness :
    RenderFull.call_nebula_api "k" "m" (.ok 500 ⟨none⟩) =
      ("❌ API 呼叫失敗 (HTTP " ++ toString 500 ++ ")", 1) :=
  (C5_completion_failures "k" "m" 500 ⟨none⟩ "timeout" ⟨none⟩ []
    (by decide) (by decide)).1

/-- C6: with no completion credential configured, call_nebula_api
returns the fixed advisory naming the missing configuration and issues
zero outbound HTTP calls, for every input message and every
hypothetical upstream behaviour. -/
theorem C6_no_key_no_call (msg : String)
    (resp : TelegramBotAlice.HttpResult RenderFull.CompletionBody) :
    RenderFull.call_nebula_api "" msg resp =
      (RenderFull.api_key_advisory, 0) := rfl

/-- C7 counterexample: the claim says an empty choices list yields the
fixed no-content default, but the [0] index on an explicitly empty
list raises IndexError, which the except clause converts to the
generic error string, not the default. -/
theorem C7_completion_extraction_counterexample :
    RenderFull.call_nebula_api "k" "m" (.ok 200 ⟨some []⟩) =
      ("❌ 發生錯誤: list index out of range", 1) ∧
    ("❌ 發生錯誤: list index out of range" : String) ≠
      RenderFull.no_content_default := by
  refine ⟨by decide, by decide⟩

/-- C7 amended: on a 200 response the caller returns the content of
the first choice; a missing choices key, a missing message object or a
missing content field each yield the fixed no-content default, while
an explicitly empty choices list instead raises an IndexError that the
exception handler converts to the generic error string. -/
theorem C7_completion_extraction (key msg content : String)
    (hk : key ≠ "") :
    RenderFull.call_nebula_api key msg
      (.ok 200 ⟨some [⟨some ⟨some content⟩⟩]⟩) = (content, 1) ∧
    RenderFull.call_nebula_api key msg (.ok 200 ⟨none⟩) =
      (RenderFull.no_content_default, 1) ∧
    RenderFull.call_nebula_api key msg (.ok 200 ⟨some [⟨none⟩]⟩) =
      (RenderFull.no_content_default, 1) ∧
    RenderFull.call_nebula_api key msg (.ok 200 ⟨some [⟨some ⟨none⟩⟩]⟩) =
      (RenderFull.no_content_default, 1) ∧
    RenderFull.call_nebula_api key msg (.ok 200 ⟨some []⟩) =
      ("❌ 發生錯誤: list index out of range", 1) := by
  refine ⟨by simp [RenderFull.call_nebula_api, hk],
    by simp [RenderFull.call_nebula_api, hk],
    by simp [RenderFull.call_nebula_api, hk],
    by simp [RenderFull.call_nebula_api, hk],
    by simp [RenderFull.call_nebula_api, hk]⟩

/-- C7 witness: with credential k, a 200 body carrying content hi
yields hi. -/
theorem C7_completion_extraction_witness :
    RenderFull.call_nebula_api "k" "m"
      (.ok 200 ⟨some [⟨some ⟨some "hi"⟩⟩]⟩) = ("hi", 1) :=
  (C7_completion_extraction "k" "m" "hi" (by decide)).1

/-- C8: for the authorized sender, /stock with no argument replies the
usage text with zero quote calls, and /stock with arguments performs
one lookup of the first argument upper-cased. -/
theorem C8_stock_args (chat a now : String) (rest : List String)
    (resp : TelegramBotAlice.HttpResult RenderFull.ChartBody) :
    RenderFull.stock_command chat chat [] resp now =
      (RenderFull.stock_usage_text, 0) ∧
    RenderFull.stock_command chat chat (a :: rest) resp now =
      (RenderFull.get_stock_price a.toUpper resp now, 1) := by
  constructor <;> simp [RenderFull.stock_command]

/-- C9: the free-text handler of the simpler variant makes zero
external endpoint calls on every input, and for an authorized sender
(or when no identity restricts senders) it replies the fixed echo
template, which contains the message text verbatim. -/
theorem C9_simple_echo (CHAT_ID : Option String) (uid text : String)
    (h : py_truthy CHAT_ID = false ∨ uid = CHAT_ID.getD "") :
    RenderSimple.handle_message CHAT_ID ⟨uid, text⟩ =
      (RenderSimple.echo_response text, 0) ∧
    strContains (RenderSimple.echo_response text) text ∧
    (∀ (cid : Option String) (upd : RenderSimple.Incoming),
      (RenderSimple.handle_message cid upd).2 = 0) := by
  refine ⟨?_, ⟨"收到你的訊息：「",
    "」\n\n此功能正在開發中，目前支援：\n• /help - 查看說明\n• /portfolio - 持股資訊\n• /report - 報告查詢",
    rfl⟩, ?_⟩
  · rcases h with h | h
    · simp [RenderSimple.handle_message, h]
    · simp [RenderSimple.handle_message, h]
  · intro cid upd
    simp only [RenderSimple.handle_message]
    split <;> rfl

/-- C9 witness: the authorized sender 123 receives the echo of hi. -/
theorem C9_simple_echo_witness :
    RenderSimple.handle_message (some "123") ⟨"123", "hi"⟩ =
      (RenderSimple.echo_response "hi", 0) :=
  (C9_simple_echo (some "123") "123" "hi" (Or.inr rfl)).1

/-- C10: in the richer quote formatter a meta without a currency field
renders the block with TWD as the currency, and a meta without a
symbol field renders the block with the requested stock code as the
symbol. -/
theorem C10_quote_defaults (code now : String) (m : RenderFull.ChartMeta) :
    (m.currency = none →
      RenderFull.get_stock_price code
          (.ok 200 (RenderFull.chartBodyOf m)) now =
        RenderFull.renderQuote (m.symbol.getD code)
          (RenderFull.dispQ m.regularMarketPrice)
          (RenderFull.dispQ m.previousClose)
          (RenderFull.quote_change m.regularMarketPrice m.previousClose)
          (RenderFull.quote_change_percent
            (RenderFull.quote_change m.regularMarketPrice m.previousClose)
            m.previousClose)
          "TWD" now) ∧
    (m.symbol = none →
      RenderFull.get_stock_price code
          (.ok 200 (RenderFull.chartBodyOf m)) now =
        RenderFull.renderQuote code
          (RenderFull.dispQ m.regularMarketPrice)
          (RenderFull.dispQ m.previousClose)
          (RenderFull.quote_change m.regularMarketPrice m.previousClose)
          (RenderFull.quote_change_percent
            (RenderFull.quote_change m.regularMarketPrice m.previousClose)
            m.previousClose)
          (m.currency.getD "TWD") now) := by
  constructor <;> intro h <;>
    simp [RenderFull.get_stock_price, RenderFull.chartBodyOf, h]

/-- C10 witness: a meta with price 600 and previous close 590 but
neither symbol nor currency renders with TWD as the currency. -/
theorem C10_quote_defaults_witness :
    RenderFull.get_stock_price "2330.TW"
        (.ok 200 (RenderFull.chartBodyOf ⟨some 600, some 590, none, none⟩))
        "t" =
      RenderFull.renderQuote
        ((none : Option String).getD "2330.TW")
        (RenderFull.dispQ (some 600)) (RenderFull.dispQ (some 590))
        (RenderFull.quote_change (some 600) (some 590))
        (RenderFull.quote_change_percent
          (RenderFull.quote_change (some 600) (some 590)) (some 590))
        "TWD" "t" :=
  (C10_quote_defaults "2330.TW" "t" ⟨some 600, some 590, none, none⟩).1 rfl

end TelegramBotAlice
